import Mathlib

/-!
Verification of the water-quality classification service (src/app.py).

The numeric inputs (ph, tds, suhu, do) are modelled as rationals `ℚ`;
Python float literals such as `6.5` or `7.80001` denote the corresponding
exact decimal rationals.  Strings are Lean `String`s; Python `str.strip`
is modelled by `String.trim` (both remove leading/trailing whitespace).
-/

namespace WaterQuality

/-- Per-parameter verdict of the threshold classifier (§3 ParameterVerdict). -/
inductive Verdict where
  | suitable
  | lessSuitable
  | notSuitable
  deriving DecidableEq, Repr

/-- pH check, src/app.py lines 43-49: contribution of the pH parameter to
`(not_suitable_count, less_suitable_count, reasons)`. -/
def cekPH (ph : ℚ) : Nat × Nat × List String :=
  if ph < 6.0 ∨ ph > 8.5 then
    (1, 0, ["pH tidak layak (" ++ toString ph ++ ") - Range layak: 6.5-7.8"])
  else if (6.0 ≤ ph ∧ ph < 6.5) ∨ (7.8 < ph ∧ ph ≤ 8.5) then
    (0, 1, ["pH kurang layak (" ++ toString ph ++ ") - Range layak: 6.5-7.8"])
  else
    (0, 0, [])

/-- TDS check, src/app.py lines 51-57. -/
def cekTDS (tds : ℚ) : Nat × Nat × List String :=
  if tds > 600 then
    (1, 0, ["TDS tidak layak (" ++ toString tds ++ " mg/L) - Range layak: 50-400 mg/L"])
  else if tds < 50 ∨ (400 < tds ∧ tds ≤ 600) then
    (0, 1, ["TDS kurang layak (" ++ toString tds ++ " mg/L) - Range layak: 50-400 mg/L"])
  else
    (0, 0, [])

/-- Temperature check, src/app.py lines 59-65. -/
def cekSuhu (suhu : ℚ) : Nat × Nat × List String :=
  if suhu < 21 ∨ suhu > 27 then
    (1, 0, ["Suhu tidak layak (" ++ toString suhu ++ "°C) - Range layak: 23-25°C"])
  else if (21 ≤ suhu ∧ suhu < 23) ∨ (25 < suhu ∧ suhu ≤ 27) then
    (0, 1, ["Suhu kurang layak (" ++ toString suhu ++ "°C) - Range layak: 23-25°C"])
  else
    (0, 0, [])

/-- DO check, src/app.py lines 67-73. -/
def cekDO (do_value : ℚ) : Nat × Nat × List String :=
  if do_value < 2.5 ∨ do_value > 7 then
    (1, 0, ["DO tidak layak (" ++ toString do_value ++ " mg/L) - Range layak: 4-6 mg/L"])
  else if (2.5 ≤ do_value ∧ do_value < 4) ∨ (6 < do_value ∧ do_value ≤ 7) then
    (0, 1, ["DO kurang layak (" ++ toString do_value ++ " mg/L) - Range layak: 4-6 mg/L"])
  else
    (0, 0, [])

/-- The dictionary `label_names = {0: 'Kurang Layak', 1: 'Layak', 2: 'Tidak Layak'}`
of src/app.py lines 83 and 167; `label_names.get n` in Python is
`(label_names n)` here, with `none` for an absent key. -/
def label_names (n : Int) : Option String :=
  if n = 0 then some "Kurang Layak"
  else if n = 1 then some "Layak"
  else if n = 2 then some "Tidak Layak"
  else none

/-- Result dictionary returned by `simple_classification`, src/app.py lines 85-93. -/
structure SimpleResult where
  classification : Int
  classification_label : String
  confidence : Option ℚ
  method : String
  reasons : List String
  not_suitable_count : Nat
  less_suitable_count : Nat
  deriving DecidableEq, Repr

/-- The threshold classifier `simple_classification`, src/app.py lines 36-93.
The four sequential parameter checks accumulate the two counters and the
reasons list in evaluation order pH, TDS, suhu, DO; lines 76-81 then pick
the overall classification from the two counters. -/
def simple_classification (ph tds suhu do_value : ℚ) : SimpleResult :=
  let p := cekPH ph
  let t := cekTDS tds
  let s := cekSuhu suhu
  let d := cekDO do_value
  let not_suitable_count : Nat := p.1 + t.1 + s.1 + d.1
  let less_suitable_count : Nat := p.2.1 + t.2.1 + s.2.1 + d.2.1
  let reasons : List String := p.2.2 ++ t.2.2 ++ s.2.2 ++ d.2.2
  let classification : Int :=
    if not_suitable_count > 0 then 2
    else if less_suitable_count > 0 then 0
    else 1
  { classification := classification
    classification_label := (label_names classification).getD "Unknown"
    confidence := none
    method := "simple_threshold"
    reasons := reasons
    not_suitable_count := not_suitable_count
    less_suitable_count := less_suitable_count }

/-- Spec-level per-parameter verdict for pH, read off the same conditions as
`cekPH` (src/app.py lines 44-49). -/
def phVerdict (ph : ℚ) : Verdict :=
  if ph < 6.0 ∨ ph > 8.5 then .notSuitable
  else if (6.0 ≤ ph ∧ ph < 6.5) ∨ (7.8 < ph ∧ ph ≤ 8.5) then .lessSuitable
  else .suitable

/-- Spec-level per-parameter verdict for TDS (src/app.py lines 52-57). -/
def tdsVerdict (tds : ℚ) : Verdict :=
  if tds > 600 then .notSuitable
  else if tds < 50 ∨ (400 < tds ∧ tds ≤ 600) then .lessSuitable
  else .suitable

/-- Spec-level per-parameter verdict for temperature (src/app.py lines 60-65). -/
def suhuVerdict (suhu : ℚ) : Verdict :=
  if suhu < 21 ∨ suhu > 27 then .notSuitable
  else if (21 ≤ suhu ∧ suhu < 23) ∨ (25 < suhu ∧ suhu ≤ 27) then .lessSuitable
  else .suitable

/-- Spec-level per-parameter verdict for DO (src/app.py lines 68-73). -/
def doVerdict (do_value : ℚ) : Verdict :=
  if do_value < 2.5 ∨ do_value > 7 then .notSuitable
  else if (2.5 ≤ do_value ∧ do_value < 4) ∨ (6 < do_value ∧ do_value ≤ 7) then .lessSuitable
  else .suitable

/-- A value that `model.predict(df)[0]` can produce: a string label or a
numeric class index (src/app.py lines 145-158; numeric predictions are
modelled as the integers `int(prediction)` yields on them). -/
inductive PredVal where
  | str (s : String)
  | num (n : Int)
  deriving DecidableEq, Repr

/-- The single-row DataFrame built at src/app.py lines 138-143: the four
readings keyed as suhu, ph, do, tds. -/
structure Reading where
  suhu : ℚ
  ph : ℚ
  do_value : ℚ
  tds : ℚ
  deriving DecidableEq, Repr

/-- An exception escaping the model during `classify`; the route handler
maps a `ValueError` to HTTP 400 and anything else to HTTP 500
(src/app.py lines 185-188). -/
inductive PyErr where
  | valueError (msg : String)
  | other (msg : String)
  deriving DecidableEq, Repr

/-- The loaded model as the route sees it: `predict` and `predict_proba`,
each of which may raise (src/app.py lines 145 and 162). -/
structure ModelIface where
  predict : Reading → Except PyErr PredVal
  predict_proba : Reading → Except PyErr (List ℚ)

/-- Python's `str.strip()` with no argument: remove leading and trailing
whitespace (used on the prediction at src/app.py line 156). -/
def pyStrip (s : String) : String :=
  ⟨((s.data.dropWhile Char.isWhitespace).reverse.dropWhile Char.isWhitespace).reverse⟩

/-- The dictionary lookup `label_map.get(prediction.strip(), 1)` restricted
to the dictionary part, src/app.py lines 149-155: exact-match on the five
listed case variants, `none` otherwise. -/
def label_map_lookup (s : String) : Option Int :=
  if s = "Layak" then some 1
  else if s = "Kurang Layak" then some 0
  else if s = "Kurang layak" then some 0
  else if s = "Tidak Layak" then some 2
  else if s = "Tidak layak" then some 2
  else none

/-- Conversion of the raw prediction to `prediction_int`, src/app.py lines
148-158: strings are stripped and looked up in `label_map` with default 1;
numbers go through `int(...)`. -/
def prediction_to_int (p : PredVal) : Int :=
  match p with
  | .str s => (label_map_lookup (pyStrip s)).getD 1
  | .num n => n

/-- `str(prediction)` for the `original_prediction` field (src/app.py line 174). -/
def prediction_to_string (p : PredVal) : String :=
  match p with
  | .str s => s
  | .num n => toString n

/-- The confidence computation of src/app.py lines 160-165: the `try` block
computes `float(max(probability) * 100)`; any exception in it — including
`predict_proba` raising and `max` on an empty sequence — yields `None`. -/
def get_confidence (proba : Except PyErr (List ℚ)) : Option ℚ :=
  match proba with
  | .error _ => none
  | .ok ps =>
    match ps.max? with
    | some m => some (m * 100)
    | none => none

/-- Result dictionary of the model path, src/app.py lines 169-181. -/
structure ModelResult where
  classification : Int
  classification_label : String
  confidence : Option ℚ
  method : String
  original_prediction : String
  input : Reading
  deriving DecidableEq, Repr

/-- Response of the `/classify` route after input coercion: a 200 with either
the fallback result plus its note or the model result, or a 400/500 error
payload (src/app.py lines 131-188). -/
inductive ClassifyResponse where
  | fallbackOk (r : SimpleResult) (note : String)
  | modelOk (r : ModelResult)
  | badRequest (msg : String)
  | serverError (msg : String)
  deriving DecidableEq, Repr

/-- The body of the `/classify` route from line 131 on, after the four inputs
have been coerced to numbers: if no model is loaded, fall back to
`simple_classification` and attach the note (lines 132-135); otherwise
predict on the one-row frame, derive `prediction_int` and the confidence,
and build the model result (lines 137-183).  An exception raised by
`model.predict` propagates to the handlers at lines 185-188. -/
def classify_route (model : Option ModelIface) (ph tds suhu do_value : ℚ) :
    ClassifyResponse :=
  match model with
  | none =>
    .fallbackOk (simple_classification ph tds suhu do_value)
      "Using fallback classification (model not loaded)"
  | some m =>
    let df : Reading := ⟨suhu, ph, do_value, tds⟩
    match m.predict df with
    | .error (.valueError e) => .badRequest ("Invalid input values: " ++ e)
    | .error (.other e) => .serverError ("Classification failed: " ++ e)
    | .ok prediction =>
      let prediction_int := prediction_to_int prediction
      let confidence := get_confidence (m.predict_proba df)
      .modelOk
        { classification := prediction_int
          classification_label := (label_names prediction_int).getD "Unknown"
          confidence := confidence
          method := "decision_tree_model"
          original_prediction := prediction_to_string prediction
          input := df }

/-- The reason entry the pH check contributes, if any, as a function of the
pH verdict (src/app.py lines 46 and 49). -/
def phReasonOpt (ph : ℚ) : Option String :=
  match phVerdict ph with
  | .notSuitable => some ("pH tidak layak (" ++ toString ph ++ ") - Range layak: 6.5-7.8")
  | .lessSuitable => some ("pH kurang layak (" ++ toString ph ++ ") - Range layak: 6.5-7.8")
  | .suitable => none

/-- The reason entry the TDS check contributes, if any (src/app.py lines 54 and 57). -/
def tdsReasonOpt (tds : ℚ) : Option String :=
  match tdsVerdict tds with
  | .notSuitable => some ("TDS tidak layak (" ++ toString tds ++ " mg/L) - Range layak: 50-400 mg/L")
  | .lessSuitable => some ("TDS kurang layak (" ++ toString tds ++ " mg/L) - Range layak: 50-400 mg/L")
  | .suitable => none

/-- The reason entry the temperature check contributes, if any
(src/app.py lines 62 and 65). -/
def suhuReasonOpt (suhu : ℚ) : Option String :=
  match suhuVerdict suhu with
  | .notSuitable => some ("Suhu tidak layak (" ++ toString suhu ++ "°C) - Range layak: 23-25°C")
  | .lessSuitable => some ("Suhu kurang layak (" ++ toString suhu ++ "°C) - Range layak: 23-25°C")
  | .suitable => none

/-- The reason entry the DO check contributes, if any (src/app.py lines 70 and 73). -/
def doReasonOpt (do_value : ℚ) : Option String :=
  match doVerdict do_value with
  | .notSuitable => some ("DO tidak layak (" ++ toString do_value ++ " mg/L) - Range layak: 4-6 mg/L")
  | .lessSuitable => some ("DO kurang layak (" ++ toString do_value ++ " mg/L) - Range layak: 4-6 mg/L")
  | .suitable => none

/-- Observer: does the route answer with an error payload (HTTP 400 or 500)? -/
def ClassifyResponse.isErrorResponse : ClassifyResponse → Bool
  | .badRequest _ => true
  | .serverError _ => true
  | _ => false

/-- Observer: the `classification` field of a successful response. -/
def ClassifyResponse.classificationField : ClassifyResponse → Option Int
  | .fallbackOk r _ => some r.classification
  | .modelOk r => some r.classification
  | _ => none

/-- Observer: the `classification_label` field of a successful response. -/
def ClassifyResponse.labelField : ClassifyResponse → Option String
  | .fallbackOk r _ => some r.classification_label
  | .modelOk r => some r.classification_label
  | _ => none

/-- Observer: the `confidence` field of a successful response. -/
def ClassifyResponse.confidenceField : ClassifyResponse → Option (Option ℚ)
  | .fallbackOk r _ => some r.confidence
  | .modelOk r => some r.confidence
  | _ => none

/-- A loaded model whose `predict` raises a generic exception. -/
def predictFailModel : ModelIface where
  predict := fun _ => .error (.other "boom")
  predict_proba := fun _ => .error (.other "boom")

/-- A loaded model whose `predict` raises a `ValueError`. -/
def predictValueErrorModel : ModelIface where
  predict := fun _ => .error (.valueError "bad value")
  predict_proba := fun _ => .error (.valueError "bad value")

/-- A loaded model predicting the numeric class index 5, with no usable
probability output. -/
def numFiveModel : ModelIface where
  predict := fun _ => .ok (.num 5)
  predict_proba := fun _ => .error (.other "no predict_proba")

/-- A loaded model predicting the string label "Tidak Layak", with
`predict_proba` raising. -/
def strLabelModel : ModelIface where
  predict := fun _ => .ok (.str "Tidak Layak")
  predict_proba := fun _ => .error (.other "no predict_proba")

/-- A loaded model predicting the numeric class index 1 with a one-point
probability distribution. -/
def numLabelModel : ModelIface where
  predict := fun _ => .ok (.num 1)
  predict_proba := fun _ => .ok [1]

/-! ## Helper lemmas -/

/-- Each of the four parameter checks appends exactly as many reasons as it
adds to the two counters, and touches at most one counter by at most one. -/
lemma cekPH_parts (x : ℚ) :
    (cekPH x).2.2.length = (cekPH x).1 + (cekPH x).2.1 ∧
    (cekPH x).1 + (cekPH x).2.1 ≤ 1 := by
  unfold cekPH; split_ifs <;> simp

lemma cekTDS_parts (x : ℚ) :
    (cekTDS x).2.2.length = (cekTDS x).1 + (cekTDS x).2.1 ∧
    (cekTDS x).1 + (cekTDS x).2.1 ≤ 1 := by
  unfold cekTDS; split_ifs <;> simp

lemma cekSuhu_parts (x : ℚ) :
    (cekSuhu x).2.2.length = (cekSuhu x).1 + (cekSuhu x).2.1 ∧
    (cekSuhu x).1 + (cekSuhu x).2.1 ≤ 1 := by
  unfold cekSuhu; split_ifs <;> simp

lemma cekDO_parts (x : ℚ) :
    (cekDO x).2.2.length = (cekDO x).1 + (cekDO x).2.1 ∧
    (cekDO x).1 + (cekDO x).2.1 ≤ 1 := by
  unfold cekDO; split_ifs <;> simp

/-- The fields of `simple_classification` are the sums, respectively the
concatenation in evaluation order, of the four checks' contributions. -/
lemma simple_counts (ph tds suhu d : ℚ) :
    (simple_classification ph tds suhu d).not_suitable_count =
      (cekPH ph).1 + (cekTDS tds).1 + (cekSuhu suhu).1 + (cekDO d).1 ∧
    (simple_classification ph tds suhu d).less_suitable_count =
      (cekPH ph).2.1 + (cekTDS tds).2.1 + (cekSuhu suhu).2.1 + (cekDO d).2.1 ∧
    (simple_classification ph tds suhu d).reasons =
      (cekPH ph).2.2 ++ (cekTDS tds).2.2 ++ (cekSuhu suhu).2.2 ++ (cekDO d).2.2 :=
  ⟨rfl, rfl, rfl⟩

/-- The reason list of each check is the singleton or empty list described by
the corresponding per-parameter verdict. -/
lemma cekPH_reason (x : ℚ) : (cekPH x).2.2 = (phReasonOpt x).toList := by
  unfold cekPH phReasonOpt phVerdict; split_ifs <;> rfl

lemma cekTDS_reason (x : ℚ) : (cekTDS x).2.2 = (tdsReasonOpt x).toList := by
  unfold cekTDS tdsReasonOpt tdsVerdict; split_ifs <;> rfl

lemma cekSuhu_reason (x : ℚ) : (cekSuhu x).2.2 = (suhuReasonOpt x).toList := by
  unfold cekSuhu suhuReasonOpt suhuVerdict; split_ifs <;> rfl

lemma cekDO_reason (x : ℚ) : (cekDO x).2.2 = (doReasonOpt x).toList := by
  unfold cekDO doReasonOpt doVerdict; split_ifs <;> rfl

/-! ## Claim theorems -/

/-- Claim C1: the overall label is computed in strict priority order from the
two counters — `not_suitable_count > 0` forces 2, otherwise
`less_suitable_count > 0` forces 0, otherwise the label is 1. -/
theorem aggregation_priority_order (ph tds suhu d : ℚ) :
    (simple_classification ph tds suhu d).classification =
      (if (simple_classification ph tds suhu d).not_suitable_count > 0 then 2
       else if (simple_classification ph tds suhu d).less_suitable_count > 0 then 0
       else 1) := rfl

/-- Claim C2, counterexample: at pH exactly 6.0 (all other parameters good)
the threshold classifier increments `less_suitable_count`, not
`not_suitable_count`, and the overall label is 0 — so pH = 6.0 is not in the
bad zone, contrary to the claim. -/
theorem ph_six_exact_counterexample :
    (simple_classification 6.0 200 24 5).not_suitable_count = 0 ∧
    (simple_classification 6.0 200 24 5).less_suitable_count = 1 ∧
    (simple_classification 6.0 200 24 5).classification = 0 := by
  norm_num [simple_classification, cekPH, cekTDS, cekSuhu, cekDO]

/-- Claim C2 as amended: a pH of exactly 6.0 lies in the marginal zone — the
pH check yields a MarginallySuitable verdict, contributing 1 to
`less_suitable_count` and 0 to `not_suitable_count`, with one reason. -/
theorem ph_six_exact_is_marginal :
    phVerdict 6.0 = Verdict.lessSuitable ∧
    (cekPH 6.0).1 = 0 ∧ (cekPH 6.0).2.1 = 1 ∧ (cekPH 6.0).2.2.length = 1 ∧
    (∀ tds suhu d : ℚ,
      (simple_classification 6.0 tds suhu d).not_suitable_count =
        (cekTDS tds).1 + (cekSuhu suhu).1 + (cekDO d).1 ∧
      (simple_classification 6.0 tds suhu d).less_suitable_count =
        1 + (cekTDS tds).2.1 + (cekSuhu suhu).2.1 + (cekDO d).2.1) := by
  refine ⟨by norm_num [phVerdict], by norm_num [cekPH], by norm_num [cekPH],
    by norm_num [cekPH], fun tds suhu d => ⟨?_, ?_⟩⟩
  · show (cekPH 6.0).1 + (cekTDS tds).1 + (cekSuhu suhu).1 + (cekDO d).1 = _
    have : (cekPH 6.0).1 = 0 := by norm_num [cekPH]
    omega
  · show (cekPH 6.0).2.1 + (cekTDS tds).2.1 + (cekSuhu suhu).2.1 + (cekDO d).2.1 = _
    have : (cekPH 6.0).2.1 = 1 := by norm_num [cekPH]
    omega

/-- Claim C3, counterexample: the string-label mapping is not
case-insensitive — the all-lowercase variant of the known label
"Tidak layak" maps to the default 1 instead of 2. -/
theorem label_map_case_sensitive_counterexample :
    prediction_to_int (.str "tidak layak") = 1 ∧
    prediction_to_int (.str "Tidak layak") = 2 ∧ (1 : Int) ≠ 2 := by decide

/-- Claim C3 as amended: string labels are stripped of surrounding
whitespace and matched exactly (case-sensitively) against the five literal
variants of the lookup table; every string maps into {0, 1, 2}, and any
string whose stripped form is none of the five variants maps to 1. -/
theorem label_map_trim_exact_match (s : String) :
    (prediction_to_int (.str s) = 0 ∨ prediction_to_int (.str s) = 1 ∨
      prediction_to_int (.str s) = 2) ∧
    (pyStrip s = "Layak" → prediction_to_int (.str s) = 1) ∧
    ((pyStrip s = "Kurang Layak" ∨ pyStrip s = "Kurang layak") →
      prediction_to_int (.str s) = 0) ∧
    ((pyStrip s = "Tidak Layak" ∨ pyStrip s = "Tidak layak") →
      prediction_to_int (.str s) = 2) ∧
    (pyStrip s ≠ "Layak" → pyStrip s ≠ "Kurang Layak" → pyStrip s ≠ "Kurang layak" →
      pyStrip s ≠ "Tidak Layak" → pyStrip s ≠ "Tidak layak" →
      prediction_to_int (.str s) = 1) := by
  simp only [prediction_to_int, label_map_lookup]
  split_ifs <;> simp_all

/-- Witness for the amended claim C3 at two concrete strings: a padded known
variant maps to its number and an unknown lowercase variant to the default. -/
theorem label_map_trim_exact_match_witness :
    (pyStrip " Tidak layak  " = "Tidak layak" ∧
      prediction_to_int (.str " Tidak layak  ") = 2) ∧
    (pyStrip "tidak layak" ≠ "Tidak layak" ∧
      prediction_to_int (.str "tidak layak") = 1) :=
  ⟨⟨by decide, (label_map_trim_exact_match " Tidak layak  ").2.2.2.1 (Or.inr (by decide))⟩,
   ⟨by decide, (label_map_trim_exact_match "tidak layak").2.2.2.2 (by decide) (by decide)
      (by decide) (by decide) (by decide)⟩⟩

/-- Claim C4, counterexample: with a loaded model whose `predict` raises, the
route returns the HTTP 500 error payload instead of falling back to the
threshold classifier — so a prediction-time model error is not handled by
silent fallback. -/
theorem predict_error_counterexample :
    classify_route (some predictFailModel) 7 200 24 5 =
      ClassifyResponse.serverError "Classification failed: boom" := rfl

/-- Claim C4 as amended: the silent fallback to the threshold classifier
(with the explanatory note) happens exactly when the model failed to load;
an exception raised by the model during prediction instead surfaces as an
error response — the HTTP 400 "Invalid input values" payload for a
`ValueError` and the HTTP 500 "Classification failed" payload otherwise. -/
theorem fallback_only_model_missing :
    (∀ ph tds suhu d : ℚ, classify_route none ph tds suhu d =
       .fallbackOk (simple_classification ph tds suhu d)
         "Using fallback classification (model not loaded)") ∧
    (∀ (m : ModelIface) (ph tds suhu d : ℚ) (e : String),
       m.predict ⟨suhu, ph, d, tds⟩ = .error (.valueError e) →
       classify_route (some m) ph tds suhu d =
         .badRequest ("Invalid input values: " ++ e)) ∧
    (∀ (m : ModelIface) (ph tds suhu d : ℚ) (e : String),
       m.predict ⟨suhu, ph, d, tds⟩ = .error (.other e) →
       classify_route (some m) ph tds suhu d =
         .serverError ("Classification failed: " ++ e)) := by
  refine ⟨fun _ _ _ _ => rfl, fun m ph tds suhu d e h => ?_, fun m ph tds suhu d e h => ?_⟩
  · simp [classify_route, h]
  · simp [classify_route, h]

/-- Witness for the amended claim C4: at a concrete reading, a model raising
`ValueError` during prediction yields the 400 payload and a model raising a
generic exception yields the 500 payload. -/
theorem fallback_only_model_missing_witness :
    (classify_route (some predictValueErrorModel) 7 200 24 5 =
      ClassifyResponse.badRequest ("Invalid input values: " ++ "bad value")) ∧
    (classify_route (some predictFailModel) 7 200 24 5 =
      ClassifyResponse.serverError ("Classification failed: " ++ "boom")) :=
  ⟨fallback_only_model_missing.2.1 predictValueErrorModel 7 200 24 5 "bad value" rfl,
   fallback_only_model_missing.2.2 predictFailModel 7 200 24 5 "boom" rfl⟩

/-- Claim C5, counterexample: a model predicting the numeric class index 5
produces a successful model-path response with `classification = 5` — outside
{0, 1, 2} — and `classification_label = "Unknown"`. -/
theorem numeric_prediction_counterexample :
    (classify_route (some numFiveModel) 7 200 24 5).classificationField = some 5 ∧
    (classify_route (some numFiveModel) 7 200 24 5).labelField = some "Unknown" := by
  constructor <;> rfl

/-- Claim C5 as amended: on the model path, a string prediction always yields
`classification` in {0, 1, 2} with the matching label from
{Kurang Layak, Layak, Tidak Layak}; a numeric prediction is passed through
unchecked, with the label falling back to "Unknown" outside {0, 1, 2}. -/
theorem model_label_mapping_contract (m : ModelIface) (ph tds suhu d : ℚ) :
    (∀ s, m.predict ⟨suhu, ph, d, tds⟩ = .ok (.str s) →
      ((classify_route (some m) ph tds suhu d).classificationField = some 0 ∧
        (classify_route (some m) ph tds suhu d).labelField = some "Kurang Layak") ∨
      ((classify_route (some m) ph tds suhu d).classificationField = some 1 ∧
        (classify_route (some m) ph tds suhu d).labelField = some "Layak") ∨
      ((classify_route (some m) ph tds suhu d).classificationField = some 2 ∧
        (classify_route (some m) ph tds suhu d).labelField = some "Tidak Layak")) ∧
    (∀ n, m.predict ⟨suhu, ph, d, tds⟩ = .ok (.num n) →
      (classify_route (some m) ph tds suhu d).classificationField = some n ∧
      (classify_route (some m) ph tds suhu d).labelField =
        some ((label_names n).getD "Unknown")) := by
  constructor
  · intro s h
    simp only [classify_route, h, ClassifyResponse.classificationField,
      ClassifyResponse.labelField, prediction_to_int]
    unfold label_map_lookup
    split_ifs <;> simp [label_names]
  · intro n h
    simp [classify_route, h, ClassifyResponse.classificationField,
      ClassifyResponse.labelField, prediction_to_int]

/-- Witness for the amended claim C5 at two concrete models: a string
prediction "Tidak Layak" and a numeric prediction 1. -/
theorem model_label_mapping_contract_witness :
    (((classify_route (some strLabelModel) 7 200 24 5).classificationField = some 0 ∧
       (classify_route (some strLabelModel) 7 200 24 5).labelField = some "Kurang Layak") ∨
     ((classify_route (some strLabelModel) 7 200 24 5).classificationField = some 1 ∧
       (classify_route (some strLabelModel) 7 200 24 5).labelField = some "Layak") ∨
     ((classify_route (some strLabelModel) 7 200 24 5).classificationField = some 2 ∧
       (classify_route (some strLabelModel) 7 200 24 5).labelField = some "Tidak Layak")) ∧
    ((classify_route (some numLabelModel) 7 200 24 5).classificationField = some 1 ∧
     (classify_route (some numLabelModel) 7 200 24 5).labelField =
       some ((label_names 1).getD "Unknown")) :=
  ⟨(model_label_mapping_contract strLabelModel 7 200 24 5).1 "Tidak Layak" rfl,
   (model_label_mapping_contract numLabelModel 7 200 24 5).2 1 rfl⟩

/-- Claim C6: exact pH boundary behaviour — 6.5 and 7.8 are Suitable with no
contribution, 7.80001 and 8.5 are MarginallySuitable (one on the marginal
counter), 8.50001 is NotSuitable (one on the bad counter). -/
theorem ph_boundary_values :
    phVerdict 6.5 = Verdict.suitable ∧ phVerdict 7.8 = Verdict.suitable ∧
    phVerdict 7.80001 = Verdict.lessSuitable ∧ phVerdict 8.5 = Verdict.lessSuitable ∧
    phVerdict 8.50001 = Verdict.notSuitable ∧
    cekPH 6.5 = (0, 0, []) ∧ cekPH 7.8 = (0, 0, []) ∧
    (cekPH 7.80001).1 = 0 ∧ (cekPH 7.80001).2.1 = 1 ∧
    (cekPH 8.5).1 = 0 ∧ (cekPH 8.5).2.1 = 1 ∧
    (cekPH 8.50001).1 = 1 ∧ (cekPH 8.50001).2.1 = 0 := by
  refine ⟨?_, ?_, ?_, ?_, ?_, ?_, ?_, ?_, ?_, ?_, ?_, ?_, ?_⟩ <;>
    norm_num [phVerdict, cekPH]

/-- Claim C7: on every input the threshold classifier reports the method tag
"simple_threshold" and a null confidence. -/
theorem threshold_method_and_confidence (ph tds suhu d : ℚ) :
    (simple_classification ph tds suhu d).method = "simple_threshold" ∧
    (simple_classification ph tds suhu d).confidence = none :=
  ⟨rfl, rfl⟩

/-- Claim C8: on the model path, a failing probability retrieval leaves the
classification successful with a null confidence, and a successful retrieval
yields the maximum class probability times 100. -/
theorem model_confidence_policy (m : ModelIface) (ph tds suhu d : ℚ) (p : PredVal)
    (hp : m.predict ⟨suhu, ph, d, tds⟩ = .ok p) :
    (∀ e, m.predict_proba ⟨suhu, ph, d, tds⟩ = .error e →
      (classify_route (some m) ph tds suhu d).confidenceField = some none) ∧
    (∀ ps mx, m.predict_proba ⟨suhu, ph, d, tds⟩ = .ok ps → ps.max? = some mx →
      (classify_route (some m) ph tds suhu d).confidenceField =
        some (some (mx * 100))) := by
  constructor
  · intro e h
    simp [classify_route, hp, h, get_confidence, ClassifyResponse.confidenceField]
  · intro ps mx h hmx
    simp [classify_route, hp, h, hmx, get_confidence, ClassifyResponse.confidenceField]

/-- Witness for claim C8 at two concrete models: one whose `predict_proba`
raises and one returning the distribution [1]. -/
theorem model_confidence_policy_witness :
    ((classify_route (some strLabelModel) 7 200 24 5).confidenceField = some none) ∧
    ((classify_route (some numLabelModel) 7 200 24 5).confidenceField =
      some (some (1 * 100))) :=
  ⟨(model_confidence_policy strLabelModel 7 200 24 5 (.str "Tidak Layak") rfl).1
      (.other "no predict_proba") rfl,
   (model_confidence_policy numLabelModel 7 200 24 5 (.num 1) rfl).2 [1] 1 rfl rfl⟩

/-- Claim C9: the reasons list is exactly the in-order concatenation of the
optional per-parameter reasons (pH, TDS, temperature, DO), and a parameter
contributes an entry precisely when its verdict is not Suitable. -/
theorem reasons_list_structure (ph tds suhu d : ℚ) :
    (simple_classification ph tds suhu d).reasons =
      ([phReasonOpt ph, tdsReasonOpt tds, suhuReasonOpt suhu,
        doReasonOpt d].filterMap id) ∧
    ((phReasonOpt ph).isSome = !(phVerdict ph == Verdict.suitable)) ∧
    ((tdsReasonOpt tds).isSome = !(tdsVerdict tds == Verdict.suitable)) ∧
    ((suhuReasonOpt suhu).isSome = !(suhuVerdict suhu == Verdict.suitable)) ∧
    ((doReasonOpt d).isSome = !(doVerdict d == Verdict.suitable)) := by
  refine ⟨?_, ?_, ?_, ?_, ?_⟩
  · show (cekPH ph).2.2 ++ (cekTDS tds).2.2 ++ (cekSuhu suhu).2.2 ++ (cekDO d).2.2 = _
    rw [cekPH_reason, cekTDS_reason, cekSuhu_reason, cekDO_reason]
    cases phReasonOpt ph <;> cases tdsReasonOpt tds <;> cases suhuReasonOpt suhu <;>
      cases doReasonOpt d <;> rfl
  · unfold phReasonOpt; cases phVerdict ph <;> rfl
  · unfold tdsReasonOpt; cases tdsVerdict tds <;> rfl
  · unfold suhuReasonOpt; cases suhuVerdict suhu <;> rfl
  · unfold doReasonOpt; cases doVerdict d <;> rfl

/-- Claim C10: the length of the reasons list equals the sum of the two
counters, each counter is at most 4, and their sum is at most 4. -/
theorem counts_reasons_invariant (ph tds suhu d : ℚ) :
    (simple_classification ph tds suhu d).reasons.length =
      (simple_classification ph tds suhu d).not_suitable_count +
        (simple_classification ph tds suhu d).less_suitable_count ∧
    (simple_classification ph tds suhu d).not_suitable_count ≤ 4 ∧
    (simple_classification ph tds suhu d).less_suitable_count ≤ 4 ∧
    (simple_classification ph tds suhu d).not_suitable_count +
      (simple_classification ph tds suhu d).less_suitable_count ≤ 4 := by
  have hp := cekPH_parts ph
  have ht := cekTDS_parts tds
  have hs := cekSuhu_parts suhu
  have hd := cekDO_parts d
  obtain ⟨hn, hl, hr⟩ := simple_counts ph tds suhu d
  rw [hn, hl, hr]
  simp only [List.length_append]
  omega

end WaterQuality
